import Mathlib

/-!
Verification of the retrieval-and-mode-dispatch pipeline of the PDF query
assistant backend (`server/app.py`).

Python strings are modelled as `List Char`; the process-wide mutable globals
(`notes_pdf_path`, `paper_pdf_path`, `document_text_chunks`, `query_history`)
are gathered in a `ServerState` record that every operation threads
explicitly.  External collaborators (the PDF text extractor, the page
renderer, the LLM completion service) are parameters: the extractor's outcome
is an `Except` value (an extraction exception aborts the whole read), the
renderer is a function from path and page to a `RenderResult`, and the LLM is
a function from system instruction and prompt to an `Except` answer.

Recursive text helpers are written with an explicit fuel argument (always
instantiated with the length of the scanned list, which is
a strict upper bound on the number of steps) so that every definition is
structurally recursive and evaluable by `decide` / `rfl` on concrete inputs.
-/

/-! ## Basic text utilities (Python string operations on `List Char`) -/

/-- Python `needle in hay` (substring containment). -/
def containsSub (hay needle : List Char) : Bool :=
  match hay with
  | [] => needle.isEmpty
  | _ :: rest => needle.isPrefixOf hay || containsSub rest needle

/-- Python `s.lower()` (per-character lowercasing). -/
def pyLower (s : List Char) : List Char := s.map Char.toLower

/-- Decimal digits of a natural number, fuelled; `fuel = n + 1` always
suffices since the argument shrinks at least by a factor of ten each step. -/
def natDigitsFuel : Nat → Nat → List Char
  | 0, _ => []
  | fuel + 1, n =>
    if n < 10 then [Nat.digitChar n]
    else natDigitsFuel fuel (n / 10) ++ [Nat.digitChar (n % 10)]

/-- Python `str(n)` for a natural number. -/
def natDigits (n : Nat) : List Char := natDigitsFuel (n + 1) n

/-- Python `int(s)` on a string of decimal digits. -/
def natOfDigits (ds : List Char) : Nat :=
  ds.foldl (fun a c => a * 10 + (c.toNat - 48)) 0

/-- Helper for `splitWs`: accumulates the current token (reversed). -/
def splitWsAux : List Char → List Char → List (List Char)
  | [], acc => if acc.isEmpty then [] else [acc.reverse]
  | c :: rest, acc =>
    if c.isWhitespace then
      if acc.isEmpty then splitWsAux rest [] else acc.reverse :: splitWsAux rest []
    else splitWsAux rest (c :: acc)

/-- Python `s.split()`: split on runs of whitespace, no empty tokens. -/
def splitWs (s : List Char) : List (List Char) := splitWsAux s []

/-- Fuelled worker for `eraseAllSub`.  When the needle is non-empty each
recursive call strictly shrinks the scanned list, so fuel equal to its
length suffices; the fuel-exhausted branch is never reached then. -/
def eraseSubFuel (needle : List Char) : Nat → List Char → List Char
  | _, [] => []
  | 0, cs => cs
  | fuel + 1, c :: rest =>
    if !needle.isEmpty && needle.isPrefixOf (c :: rest) then
      eraseSubFuel needle fuel ((c :: rest).drop needle.length)
    else
      c :: eraseSubFuel needle fuel rest

/-- Python `s.replace(needle, '')`: erase every (leftmost, non-overlapping)
occurrence of a non-empty needle.  (The source only ever calls `replace`
with fixed non-empty literals.) -/
def eraseAllSub (needle s : List Char) : List Char := eraseSubFuel needle s.length s

/-- Fuelled worker for `splitOnSub`; `acc` is the current piece, reversed. -/
def splitSubFuel (sep : List Char) : Nat → List Char → List Char → List (List Char)
  | _, [], acc => [acc.reverse]
  | 0, cs, acc => [acc.reverse ++ cs]
  | fuel + 1, c :: rest, acc =>
    if !sep.isEmpty && sep.isPrefixOf (c :: rest) then
      acc.reverse :: splitSubFuel sep fuel ((c :: rest).drop sep.length) []
    else
      splitSubFuel sep fuel rest (c :: acc)

/-- Python `s.split(sep)` for a non-empty separator: pieces between the
leftmost non-overlapping occurrences of `sep`, empty pieces kept.  (The
source only ever calls it with fixed non-empty literals.) -/
def splitOnSub (sep s : List Char) : List (List Char) :=
  if sep.isEmpty then [s] else splitSubFuel sep s.length s []

/-- Python `sep.join(xs)`. -/
def joinSep (sep : List Char) : List (List Char) → List Char
  | [] => []
  | [x] => x
  | x :: y :: rest => x ++ sep ++ joinSep sep (y :: rest)

/-- Python `l[-n:]`: the last `n` elements. -/
def lastN (n : Nat) (l : List α) : List α := l.drop (l.length - n)

/-- Insert into a sorted list of naturals. -/
def insertSorted (n : Nat) : List Nat → List Nat
  | [] => [n]
  | m :: ms => if n ≤ m then n :: m :: ms else m :: insertSorted n ms

/-- Python `sorted(l)` on naturals (insertion sort). -/
def sortNat (l : List Nat) : List Nat := l.foldr insertSorted []

/-! ## The Chunker (`extract_text_and_chunk`, app.py lines 75-105) -/

/-- The chunk size used by the final revision (`chunk_size = 1000`). -/
def chunk_size : Nat := 1000

/-- Fuelled worker slicing a page text into consecutive `chunk_size` pieces,
mirroring `for j in range(0, len(text), chunk_size): text[j:j+chunk_size]`.
Fuel equal to the text length suffices (each step drops `chunk_size ≥ 1`
characters). -/
def chunkSlicesFuel : Nat → List Char → List (List Char)
  | _, [] => []
  | 0, cs => [cs]
  | fuel + 1, cs => cs.take chunk_size :: chunkSlicesFuel fuel (cs.drop chunk_size)

/-- The consecutive, non-overlapping `chunk_size`-character slices of a text. -/
def chunkSlices (cs : List Char) : List (List Char) := chunkSlicesFuel cs.length cs

/-- The provenance prefix `f"{source_label} [Page {page_number}] "` put in
front of every stored slice. -/
def pageLabel (source_label : List Char) (page_number : Nat) : List Char :=
  source_label ++ " [Page ".data ++ natDigits page_number ++ "] ".data

/-- All stored chunks of one page:
`f"{source_label} [Page {page_number}] {chunk}"` for each slice. -/
def chunkPage (source_label : List Char) (page_number : Nat) (text : List Char) :
    List (List Char) :=
  (chunkSlices text).map (fun c => pageLabel source_label page_number ++ c)

/-- The `for i, page in enumerate(reader.pages)` loop with
`page_number = i + 1`: chunks of all pages, in page order. -/
def chunkPages (source_label : List Char) (page_number : Nat) :
    List (List Char) → List (List Char)
  | [] => []
  | t :: ts => chunkPage source_label page_number t ++ chunkPages source_label (page_number + 1) ts

/-- `source_label = "[NOTES]" if is_notes_file else "[PAPER]"`. -/
def sourceLabelOf (is_notes_file : Bool) : List Char :=
  if is_notes_file then "[NOTES]".data else "[PAPER]".data

/-- The `new_chunks` list built by `extract_text_and_chunk` from the
per-page extracted texts. -/
def newChunks (is_notes_file : Bool) (pages : List (List Char)) : List (List Char) :=
  chunkPages (sourceLabelOf is_notes_file) 1 pages

/-! ## Global server state and the upload endpoints -/

/-- The process-wide globals of `app.py`. -/
structure ServerState where
  notes_pdf_path : Option String
  paper_pdf_path : Option String
  document_text_chunks : List (List Char)
  query_history : List (List Char)
deriving DecidableEq

/-- Outcome reported by an upload endpoint: `{message, chunks_count}` on
success, HTTP 500 on processing failure. -/
inductive UploadOutcome where
  | success (chunks_count : Nat)
  | failure500
deriving DecidableEq

/-- `extract_text_and_chunk(pdf_path, is_notes_file)`.  The PDF reader is an
external collaborator, so its outcome is passed in: `Except.error ()` when
any exception is raised while reading or extracting (the `except` branch
returns `(False, 0)` and, since the loop body mutates nothing global, the
state is untouched), `Except.ok pages` when every page's text was extracted.
On success the primary (notes) flag clears both the Chunk Store and the
History Ledger before extending; the secondary (paper) flag only appends. -/
def extract_text_and_chunk (st : ServerState)
    (extraction : Except Unit (List (List Char))) (is_notes_file : Bool) :
    ServerState × Bool × Nat :=
  match extraction with
  | Except.error _ => (st, false, 0)
  | Except.ok pages =>
    let new_chunks := newChunks is_notes_file pages
    if is_notes_file then
      ({ st with document_text_chunks := new_chunks, query_history := [] },
        true, new_chunks.length)
    else
      ({ st with document_text_chunks := st.document_text_chunks ++ new_chunks },
        true, new_chunks.length)

/-- `POST /upload-notes` (app.py lines 150-174) with a `pdf` file present:
the global `notes_pdf_path` is overwritten with the newly saved file's path
before extraction is attempted; then `extract_text_and_chunk(..., True)`
decides success (chunk count) or a 500 response. -/
def upload_notes_pdf (st : ServerState) (current_notes_path : String)
    (extraction : Except Unit (List (List Char))) : ServerState × UploadOutcome :=
  let st1 := { st with notes_pdf_path := some current_notes_path }
  match extract_text_and_chunk st1 extraction true with
  | (st2, true, count) => (st2, UploadOutcome.success count)
  | (st2, false, _) => (st2, UploadOutcome.failure500)

/-- `POST /upload-paper` (app.py lines 177-201) with a `pdf` file present:
the global `paper_pdf_path` is overwritten before extraction is attempted;
then `extract_text_and_chunk(..., False)` decides the outcome. -/
def upload_paper_pdf (st : ServerState) (current_paper_path : String)
    (extraction : Except Unit (List (List Char))) : ServerState × UploadOutcome :=
  let st1 := { st with paper_pdf_path := some current_paper_path }
  match extract_text_and_chunk st1 extraction false with
  | (st2, true, count) => (st2, UploadOutcome.success count)
  | (st2, false, _) => (st2, UploadOutcome.failure500)

/-! ## Query handling (`handle_query`, app.py lines 204-381)

The question given to `handle_query` below is the *effective* question: the
query-rewrite step for `Q<n>` references (lines 220-234) may have replaced
the raw question by the text extracted from the question paper, and all
classification, retrieval and prompting work on the result. -/

/-- Response mode of a query. -/
inductive Mode where
  | FULL_TEXT
  | COMPARISON
  | VERBATIM
deriving DecidableEq

/-- The JSON payload of a successful `/query` response. The FULL_TEXT
response carries no `image_data` key, modelled as `none`. -/
structure QueryResponse where
  answer : List Char
  sources : List Char
  mode : Mode
  image_data : Option (List Char)
deriving DecidableEq

deriving instance DecidableEq for Except

/-- The full-text trigger phrases (line 244). -/
def full_text_keywords : List (List Char) :=
  ["explain all the pdf".data, "give me the content".data,
   "show all content".data, "extract all text".data]

/-- `any(keyword in lower_q for keyword in full_text_keywords)` (line 245). -/
def fullTextTrigger (lower_q : List Char) : Bool :=
  full_text_keywords.any (fun keyword => containsSub lower_q keyword)

/-- The comparison trigger words (line 254). -/
def comparison_keywords : List (List Char) :=
  ["compare".data, "difference".data, "differentiate".data, "distinguish".data]

/-- `any(keyword in lower_q for keyword in comparison_keywords)` (line 255). -/
def comparisonTrigger (lower_q : List Char) : Bool :=
  comparison_keywords.any (fun keyword => containsSub lower_q keyword)

/-- COMPARISON-mode keyword extraction (lines 260-261):
`lower_q.replace('compare','').replace('difference','')
.replace('differentiate','').replace('between','').split()`.
Note that `'distinguish'` is **not** replaced. -/
def comparisonModeKeywords (lower_q : List Char) : List (List Char) :=
  splitWs (eraseAllSub "between".data (eraseAllSub "differentiate".data
    (eraseAllSub "difference".data (eraseAllSub "compare".data lower_q))))

/-- The instructional-fluff list of VERBATIM mode (lines 303-308); several
entries are multi-word phrases. -/
def fluff_words : List (List Char) :=
  ["name the".data, "broad categories of".data, "explain them briefly".data,
   "the four".data, "and".data, "for".data,
   "marks".data, "briefly".data, "neat diagram".data, "with a".data,
   "explain the".data, "following the".data, "model".data,
   "hosts".data, "communication".data, "what is".data, "what are".data,
   "please explain".data, "describe".data,
   "definition".data, "type of".data, "in detail".data]

/-- VERBATIM-mode keyword extraction (lines 310-314): split the lowercased
question on whitespace, keep a token iff it is not an element of
`fluff_words` and has length > 2. -/
def final_keywords (lower_q : List Char) : List (List Char) :=
  (splitWs lower_q).filter
    (fun word => !(fluff_words.contains word) && decide (2 < word.length))

/-- The Retriever (lines 263-266 and 319-322): linear scan of the Chunk
Store in store order, keeping a chunk iff some keyword is a literal
substring of the chunk's lowercased text, truncated to the mode cap. -/
def retrieveChunks (keywords : List (List Char)) (store : List (List Char))
    (cap : Nat) : List (List Char) :=
  (store.filter (fun chunk => keywords.any (fun kw => containsSub (pyLower chunk) kw))).take cap

/-- `int(chunk.split('[Page ')[1].split(']')[0])` (line 273) for a chunk
containing `'[Page '`.  `none` models `int` raising on a non-digit payload
(Python also tolerates surrounding whitespace and a sign, which never occur
in the generated tags). -/
def parseChunkPageNum (chunk : List Char) : Option Nat :=
  match splitOnSub "[Page ".data chunk with
  | _ :: second :: _ =>
    let payload := (splitOnSub "]".data second).headD []
    if !payload.isEmpty && payload.all Char.isDigit then some (natOfDigits payload)
    else none
  | _ => none

/-- `f" (Sources: Pages {', '.join(map(str, retrieved_pages))})"` (line 276). -/
def pageRefString (pages : List Nat) : List Char :=
  " (Sources: Pages ".data ++ joinSep ", ".data (pages.map natDigits) ++ ")".data

/-- The conversation-history block (lines 237-241):
`"\n".join(query_history[-5:])`, wrapped in header and footer lines when
non-empty.  Note the Ledger is a *flat* list of lines (one `Q:` line and one
`A:` line per interaction), so `[-5:]` is the last five lines, not the last
five question/answer pairs. -/
def history_context (query_history : List (List Char)) : List Char :=
  let hc := joinSep "\n".data (lastN 5 query_history)
  if hc.isEmpty then []
  else "--- Conversation History ---\n".data ++ hc
    ++ "\n------------------------------\n".data

/-- The COMPARISON system instruction (lines 281-290). -/
def comparison_instruction : List Char :=
  ("You are an expert academic analyst. Your task is to extract comparison points for the concepts in the user\x27s question, using ONLY the CONTEXT provided.\n\nRULES:\n1. **OUTPUT FORMAT:** The entire output MUST be a single Markdown table.\n2. **TABLE STRUCTURE:** The table MUST have three columns: \x27Parameter\x27, \x27Concept 1 Value\x27, and \x27Concept 2 Value\x27.\n3. **CONTENT:** Extract specific differentiating parameters (e.g., Cost, Speed, Architecture) and fill in the values for the two concepts being compared.\n4. **CITATION:** Append the citation string at the very end of the markdown table.\n5. **NO INTRO/CLOSING:** Do NOT include any introductory or explanatory text outside the table and the citation.\n6. **FAILURE:** If information for a clear comparison table is not in the context, reply with the exact phrase: \x27Insufficient data for a comparison table was found in the document.\x27").data

/-- The VERBATIM system instruction (lines 328-337). -/
def verbatim_instruction : List Char :=
  ("You are a MUTE, Document-Bound Extraction Specialist. Your ONLY source of knowledge is the CONTEXT. Use the CONTEXT and the optional CONVERSATION HISTORY below to fully answer the user\x27s question, especially if it involves a list, explanation, or a reference to a diagram.\nRULES:\n1. **MUST BE VERBATIM:** The entire output MUST be copied EXACTLY from the CONTEXT. Do not reword or add any summary/commentary.\n2. **OUTPUT FORMAT:** The response MUST be a VERBATIM, fully-quoted response. Return all sentences/paragraphs necessary to provide the full explanation.\n3. **CITATION:** The entire response MUST be the exact quote(s) followed by the citation [Page X]. If the answer spans multiple chunks/pages, include all relevant citations.\n4. **IMAGE HINT (CRITICAL):** If the answer explicitly references a figure or if the question asks for a \x27diagram,\x27 your output must ALSO include the reference [FIG:Page X] at the end, using the page number where the diagram/figure is found in the context.\n5. **FAILURE:** If the answer is not in the context, reply with the exact phrase: \x27The required information was not found in the uploaded document.\x27").data

/-- The COMPARISON prompt (line 293). -/
def comparisonPrompt (question context cite : List Char) : List Char :=
  "User Question: ".data ++ question ++ "\n\nCONTEXT:\n".data ++ context
    ++ "\n\nCITATION STRING TO APPEND: ".data ++ cite

/-- The VERBATIM prompt (line 339); unlike the COMPARISON prompt it embeds
the conversation-history block. -/
def verbatimPrompt (hctx question context : List Char) : List Char :=
  "CONVERSATION HISTORY: ".data ++ hctx ++ " \nUser Question: ".data ++ question
    ++ "\n\nCONTEXT:\n".data ++ context

/-- The `sources` string of the FULL_TEXT response (line 249). -/
def fullTextSources (n : Nat) : List Char :=
  "Complete content extracted from ALL uploaded files (".data ++ natDigits n
    ++ " chunks).".data

/-- The `sources` string of the VERBATIM response (line 325). -/
def verbatimSources (n : Nat) : List Char :=
  "Verbatim Extraction Mode (Using ".data ++ natDigits n ++ " chunks)".data

/-! ## Image post-processing (`extract_and_crop_image` and lines 356-366) -/

/-- What the filesystem / PyMuPDF collaborator does for a given path and
page: the file is absent, rendering succeeds with some base64 payload, or
opening / rendering raises. -/
inductive RenderResult where
  | missingFile
  | success (b64 : List Char)
  | renderError
deriving DecidableEq

/-- `extract_and_crop_image(pdf_path, page_number)` (lines 40-70): `None`
when the path does not exist, a `data:image/png;base64,` URI on success, and
a propagating exception (`Except.error`) when opening or rendering raises
(including the `doc.close()` in `finally` raising on `doc = None`). -/
def extract_and_crop_image (fs : String → Nat → RenderResult)
    (pdf_path : String) (page_number : Nat) : Except Unit (Option (List Char)) :=
  match fs pdf_path page_number with
  | RenderResult.missingFile => Except.ok none
  | RenderResult.success b64 =>
      Except.ok (some ("data:image/png;base64,".data ++ b64))
  | RenderResult.renderError => Except.error ()

/-- The figure-marker parse (lines 359-361):
`answer_text.split('[FIG:Page ')[1].split(']')[0]`, digits filtered out and
fed to `int`.  `none` models the swallowed `IndexError` / `ValueError`. -/
def parseFigPage (answer_text : List Char) : Option Nat :=
  match splitOnSub "[FIG:Page ".data answer_text with
  | _ :: second :: _ =>
    let page_match := (splitOnSub "]".data second).headD []
    let ds := page_match.filter Char.isDigit
    if ds.isEmpty then none else some (natOfDigits ds)
  | _ => none

/-- The image detection and extraction step (lines 356-366): runs only for
VERBATIM answers containing `"[FIG:"` while a primary path is set; every
exception inside (parse failure, missing file handled by the `None` return,
render error) leaves `image_data = None`. -/
def figure_image (fs : String → Nat → RenderResult) (notes_pdf_path : Option String)
    (mode : Mode) (answer_text : List Char) : Option (List Char) :=
  match notes_pdf_path with
  | none => none
  | some p =>
    if mode = Mode.VERBATIM ∧ containsSub answer_text "[FIG:".data = true then
      match parseFigPage answer_text with
      | none => none
      | some page_num =>
        match extract_and_crop_image fs p page_num with
        | Except.ok v => v
        | Except.error _ => none
    else none

/-- `POST /query` (lines 204-381) on the effective question.  `llm` is the
external completion service (`system_instruction → prompt → answer`), `fs`
the page renderer.  The error codes are the HTTP statuses: 400 when no
document is loaded, 500 for a completion-service failure or an unhandled
exception (the page-tag `int` parse in COMPARISON mode). -/
def handle_query (st : ServerState) (question : List Char)
    (llm : List Char → List Char → Except Unit (List Char))
    (fs : String → Nat → RenderResult) :
    ServerState × Except Nat QueryResponse :=
  if st.document_text_chunks.isEmpty then (st, Except.error 400)
  else
    let lower_q := pyLower question
    if fullTextTrigger lower_q then
      (st, Except.ok
        { answer := joinSep "\n\n".data st.document_text_chunks,
          sources := fullTextSources st.document_text_chunks.length,
          mode := Mode.FULL_TEXT, image_data := none })
    else if comparisonTrigger lower_q then
      let keywords := comparisonModeKeywords lower_q
      let relevant_chunks := retrieveChunks keywords st.document_text_chunks 30
      let context := joinSep "\n---\n".data relevant_chunks
      let parses := (relevant_chunks.filter
        (fun chunk => containsSub chunk "[Page ".data)).map parseChunkPageNum
      if parses.contains none then (st, Except.error 500)
      else
        let retrieved_pages := sortNat (parses.filterMap id).dedup
        let prompt := comparisonPrompt question context (pageRefString retrieved_pages)
        match llm comparison_instruction prompt with
        | Except.error _ => (st, Except.error 500)
        | Except.ok answer_text =>
          let st1 := { st with query_history := st.query_history
            ++ ["Q: ".data ++ question, "A: ".data ++ answer_text.take 50 ++ "...".data] }
          (st1, Except.ok
            { answer := answer_text, sources := "Comparison Mode".data,
              mode := Mode.COMPARISON,
              image_data := figure_image fs st.notes_pdf_path Mode.COMPARISON answer_text })
    else
      let keywords := final_keywords lower_q
      let relevant_chunks := retrieveChunks keywords st.document_text_chunks 25
      let context := joinSep "\n---\n".data relevant_chunks
      let prompt := verbatimPrompt (history_context st.query_history) question context
      match llm verbatim_instruction prompt with
      | Except.error _ => (st, Except.error 500)
      | Except.ok answer_text =>
        let st1 := { st with query_history := st.query_history
          ++ ["Q: ".data ++ question, "A: ".data ++ answer_text.take 50 ++ "...".data] }
        (st1, Except.ok
          { answer := answer_text, sources := verbatimSources relevant_chunks.length,
            mode := Mode.VERBATIM,
            image_data := figure_image fs st.notes_pdf_path Mode.VERBATIM answer_text })

/-! ## Helper lemmas -/

lemma chunkSlicesFuel_flatten : ∀ (fuel : Nat) (cs : List Char),
    (chunkSlicesFuel fuel cs).flatten = cs := by
  intro fuel
  induction fuel with
  | zero =>
    intro cs
    cases cs <;> simp [chunkSlicesFuel]
  | succ fuel ih =>
    intro cs
    cases cs with
    | nil => simp [chunkSlicesFuel]
    | cons c rest =>
      simp only [chunkSlicesFuel, List.flatten_cons, ih]
      exact List.take_append_drop _ _

lemma chunkSlicesFuel_length_le : ∀ (fuel : Nat) (cs : List Char),
    cs.length ≤ fuel → ∀ c ∈ chunkSlicesFuel fuel cs, c.length ≤ chunk_size := by
  intro fuel
  induction fuel with
  | zero =>
    intro cs hcs c hc
    have : cs = [] := by
      cases cs with
      | nil => rfl
      | cons a t => simp at hcs
    subst this
    simp [chunkSlicesFuel] at hc
  | succ fuel ih =>
    intro cs hcs c hc
    cases cs with
    | nil => simp [chunkSlicesFuel] at hc
    | cons a t =>
      simp only [chunkSlicesFuel, List.mem_cons] at hc
      rcases hc with rfl | hc
      · simp [List.length_take]
      · refine ih _ ?_ c hc
        have h1 : ((a :: t).drop chunk_size).length = (a :: t).length - chunk_size :=
          List.length_drop _ _
        have h2 : (a :: t).length ≤ fuel + 1 := hcs
        have h3 : 0 < chunk_size := by decide
        simp only [h1]
        omega

lemma chunkSlices_flatten (cs : List Char) : (chunkSlices cs).flatten = cs :=
  chunkSlicesFuel_flatten cs.length cs

lemma chunkSlices_length_le (cs : List Char) :
    ∀ c ∈ chunkSlices cs, c.length ≤ chunk_size :=
  chunkSlicesFuel_length_le cs.length cs (Nat.le_refl _)

lemma digitChar_isDigit (m : Nat) (h : m < 10) : (Nat.digitChar m).isDigit = true := by
  interval_cases m <;> decide

lemma digitChar_toNat (m : Nat) (h : m < 10) : (Nat.digitChar m).toNat = m + 48 := by
  interval_cases m <;> decide

lemma natDigitsFuel_digits : ∀ (fuel n : Nat), n < fuel →
    ∀ c ∈ natDigitsFuel fuel n, c.isDigit = true := by
  intro fuel
  induction fuel with
  | zero => intro n hn; omega
  | succ fuel ih =>
    intro n hn c hc
    by_cases h10 : n < 10
    · simp only [natDigitsFuel, if_pos h10, List.mem_singleton] at hc
      subst hc
      exact digitChar_isDigit n h10
    · simp only [natDigitsFuel, if_neg h10, List.mem_append, List.mem_singleton] at hc
      rcases hc with hc | rfl
      · refine ih (n / 10) ?_ c hc
        have : n / 10 < n := Nat.div_lt_self (by omega) (by omega)
        omega
      · exact digitChar_isDigit _ (Nat.mod_lt _ (by omega))

lemma natOfDigits_append_digit (ds : List Char) (c : Char) :
    natOfDigits (ds ++ [c]) = natOfDigits ds * 10 + (c.toNat - 48) := by
  simp [natOfDigits, List.foldl_append]

lemma natOfDigits_natDigitsFuel : ∀ (fuel n : Nat), n < fuel →
    natOfDigits (natDigitsFuel fuel n) = n := by
  intro fuel
  induction fuel with
  | zero => intro n hn; omega
  | succ fuel ih =>
    intro n hn
    by_cases h10 : n < 10
    · simp only [natDigitsFuel, if_pos h10]
      simp [natOfDigits, digitChar_toNat n h10]
    · simp only [natDigitsFuel, if_neg h10, natOfDigits_append_digit]
      have hdiv : n / 10 < n := Nat.div_lt_self (by omega) (by omega)
      rw [ih (n / 10) (by omega)]
      rw [digitChar_toNat _ (Nat.mod_lt _ (by omega))]
      have := Nat.div_add_mod n 10
      omega

lemma natDigits_digits (n : Nat) : ∀ c ∈ natDigits n, c.isDigit = true :=
  natDigitsFuel_digits (n + 1) n (Nat.lt_succ_self n)

lemma natDigits_inj {a b : Nat} (h : natDigits a = natDigits b) : a = b := by
  have ha := natOfDigits_natDigitsFuel (a + 1) a (Nat.lt_succ_self a)
  have hb := natOfDigits_natDigitsFuel (b + 1) b (Nat.lt_succ_self b)
  unfold natDigits at h
  rw [h] at ha
  rw [hb] at ha
  exact ha.symm

lemma prefix_append_cancel {x u v : List Char} : x ++ u <+: x ++ v ↔ u <+: v := by
  induction x with
  | nil => simp
  | cons c x ih => simp [List.cons_prefix_cons, ih]

lemma digits_bracket_eq : ∀ (d₁ d₂ t₁ t₂ : List Char),
    (∀ c ∈ d₁, c.isDigit = true) → (∀ c ∈ d₂, c.isDigit = true) →
    d₁ ++ ']' :: t₁ <+: d₂ ++ ']' :: t₂ → d₁ = d₂ := by
  intro d₁
  induction d₁ with
  | nil =>
    intro d₂ t₁ t₂ _ h2 hp
    cases d₂ with
    | nil => rfl
    | cons b d' =>
      rw [List.nil_append, List.cons_append, List.cons_prefix_cons] at hp
      have hb := h2 b (List.mem_cons_self b d')
      rw [← hp.1] at hb
      simp at hb
  | cons a d ih =>
    intro d₂ t₁ t₂ h1 h2 hp
    cases d₂ with
    | nil =>
      rw [List.cons_append, List.nil_append, List.cons_prefix_cons] at hp
      have ha := h1 a (List.mem_cons_self a d)
      rw [hp.1] at ha
      simp at ha
    | cons b d' =>
      rw [List.cons_append, List.cons_append, List.cons_prefix_cons] at hp
      have := ih d' t₁ t₂ (fun c hc => h1 c (List.mem_cons_of_mem a hc))
        (fun c hc => h2 c (List.mem_cons_of_mem b hc)) hp.2
      rw [hp.1, this]

lemma pageLabel_prefix_eq {lbl : List Char} {a b : Nat} {s : List Char}
    (h : pageLabel lbl a <+: pageLabel lbl b ++ s) : a = b := by
  have hbr : ("] ".data : List Char) = [']', ' '] := rfl
  have h' : (lbl ++ " [Page ".data) ++ (natDigits a ++ ']' :: [' '])
      <+: (lbl ++ " [Page ".data) ++ (natDigits b ++ ']' :: (' ' :: s)) := by
    simpa [pageLabel, hbr, List.append_assoc] using h
  rw [prefix_append_cancel] at h'
  exact natDigits_inj (digits_bracket_eq _ _ _ _ (natDigits_digits a) (natDigits_digits b) h')

lemma mem_chunkPage {lbl : List Char} {p : Nat} {t c : List Char}
    (h : c ∈ chunkPage lbl p t) : ∃ s ∈ chunkSlices t, c = pageLabel lbl p ++ s := by
  rcases List.mem_map.mp h with ⟨s, hs, rfl⟩
  exact ⟨s, hs, rfl⟩

lemma mem_chunkPages {lbl : List Char} : ∀ (ts : List (List Char)) (k : Nat) (c : List Char),
    c ∈ chunkPages lbl k ts →
    ∃ j, ∃ hj : j < ts.length, c ∈ chunkPage lbl (k + j) (ts.get ⟨j, hj⟩) := by
  intro ts
  induction ts with
  | nil => intro k c hc; simp [chunkPages] at hc
  | cons t ts ih =>
    intro k c hc
    rw [chunkPages, List.mem_append] at hc
    rcases hc with hc | hc
    · exact ⟨0, by simp, by simpa using hc⟩
    · rcases ih (k + 1) c hc with ⟨j, hj, hcj⟩
      refine ⟨j + 1, by simpa using Nat.succ_lt_succ hj, ?_⟩
      have : k + (j + 1) = k + 1 + j := by omega
      rw [this]
      simpa using hcj

lemma mem_joinSep_infix (sep : List Char) : ∀ (xs : List (List Char)) (x : List Char),
    x ∈ xs → x <:+: joinSep sep xs := by
  intro xs
  induction xs with
  | nil => intro x hx; simp at hx
  | cons y ys ih =>
    intro x hx
    rcases List.mem_cons.mp hx with rfl | hx
    · cases ys with
      | nil => exact List.infix_refl x
      | cons z zs =>
        rw [joinSep]
        exact ((List.prefix_append x sep).trans
          (List.prefix_append (x ++ sep) (joinSep sep (z :: zs)))).isInfix
    · cases ys with
      | nil => simp at hx
      | cons z zs =>
        rw [joinSep]
        exact (ih x hx).trans (List.suffix_append (y ++ sep) (joinSep sep (z :: zs))).isInfix

lemma splitWsAux_no_ws : ∀ (cs acc : List Char), (∀ a ∈ acc, a.isWhitespace = false) →
    ∀ w ∈ splitWsAux cs acc, ∀ ch ∈ w, ch.isWhitespace = false := by
  intro cs
  induction cs with
  | nil =>
    intro acc hacc w hw ch hch
    by_cases hempty : acc.isEmpty
    · simp [splitWsAux, hempty] at hw
    · simp only [splitWsAux, hempty, Bool.false_eq_true, if_false, List.mem_singleton] at hw
      subst hw
      exact hacc ch (List.mem_reverse.mp hch)
  | cons c rest ih =>
    intro acc hacc w hw ch hch
    by_cases hws : c.isWhitespace
    · by_cases hempty : acc.isEmpty
      · simp only [splitWsAux, hws, if_true, hempty] at hw
        exact ih [] (by simp) w hw ch hch
      · simp only [splitWsAux, hws, if_true, hempty, Bool.false_eq_true, if_false,
          List.mem_cons] at hw
        rcases hw with rfl | hw
        · exact hacc ch (List.mem_reverse.mp hch)
        · exact ih [] (by simp) w hw ch hch
    · simp only [splitWsAux, hws, Bool.false_eq_true, if_false] at hw
      refine ih (c :: acc) ?_ w hw ch hch
      intro a ha
      rcases List.mem_cons.mp ha with rfl | ha
      · simpa using hws
      · exact hacc a ha

lemma splitWs_no_ws {s : List Char} : ∀ w ∈ splitWs s, ∀ ch ∈ w, ch.isWhitespace = false :=
  splitWsAux_no_ws s [] (by simp)

/-! ## Claim theorems -/

/-- Claim C1: for every uploaded document and every page, the chunker splits
that page's extracted text into consecutive, non-overlapping,
order-preserving slices of at most `chunk_size = 1000` characters; every
stored chunk of the page carries the `[NOTES]`/`[PAPER]` plus `[Page N]`
provenance prefix, and stripping that prefix and concatenating the page's
chunks in sequence order reproduces exactly that page's extracted text. -/
theorem C1_chunking_roundtrip (is_notes_file : Bool) (pages : List (List Char))
    (i : Nat) (text : List Char) (h : pages.get? i = some text) :
    (∀ c ∈ chunkPage (sourceLabelOf is_notes_file) (i + 1) text,
        pageLabel (sourceLabelOf is_notes_file) (i + 1) <+: c ∧
        (c.drop (pageLabel (sourceLabelOf is_notes_file) (i + 1)).length).length ≤ chunk_size) ∧
    ((chunkPage (sourceLabelOf is_notes_file) (i + 1) text).map
        (fun c => c.drop (pageLabel (sourceLabelOf is_notes_file) (i + 1)).length)).flatten
      = text ∧
    (extract_text_and_chunk ⟨none, none, [], []⟩ (Except.ok pages)
        is_notes_file).1.document_text_chunks = newChunks is_notes_file pages := by
  refine ⟨?_, ?_, ?_⟩
  · intro c hc
    rcases mem_chunkPage hc with ⟨s, hs, rfl⟩
    refine ⟨List.prefix_append _ _, ?_⟩
    rw [List.drop_left]
    exact chunkSlices_length_le _ _ hs
  · rw [chunkPage, List.map_map]
    have hcomp : ((fun c => c.drop (pageLabel (sourceLabelOf is_notes_file) (i + 1)).length)
        ∘ fun c => pageLabel (sourceLabelOf is_notes_file) (i + 1) ++ c) = id := by
      funext s
      simp [List.drop_left]
    rw [hcomp, List.map_id, chunkSlices_flatten]
  · cases is_notes_file <;> simp [extract_text_and_chunk]

/-- Claim C1, witness: the single-page document `["hello"]` round-trips. -/
theorem C1_chunking_roundtrip_witness :
    ((chunkPage (sourceLabelOf true) 1 "hello".data).map
        (fun c => c.drop (pageLabel (sourceLabelOf true) 1).length)).flatten
      = "hello".data :=
  (C1_chunking_roundtrip true ["hello".data] 0 "hello".data (by decide)).2.1

/-- Claim C2: a query whose lowercased effective question contains any
full-text trigger phrase is answered in FULL_TEXT mode without calling the
completion service (the result does not depend on the `llm` collaborator):
the answer is the concatenation of all stored chunks and the `sources`
string reports the total chunk count.  The hypothesis does not exclude
comparison trigger words, so rule 1 winning over rule 2 is part of the
statement. -/
theorem C2_full_text_bypass (st : ServerState) (question : List Char)
    (llm llm' : List Char → List Char → Except Unit (List Char))
    (fs : String → Nat → RenderResult)
    (h1 : st.document_text_chunks ≠ [])
    (h2 : fullTextTrigger (pyLower question) = true) :
    handle_query st question llm fs =
      (st, Except.ok
        { answer := joinSep "\n\n".data st.document_text_chunks,
          sources := fullTextSources st.document_text_chunks.length,
          mode := Mode.FULL_TEXT, image_data := none }) ∧
    handle_query st question llm fs = handle_query st question llm' fs := by
  have key : ∀ l : List Char → List Char → Except Unit (List Char),
      handle_query st question l fs =
        (st, Except.ok
          { answer := joinSep "\n\n".data st.document_text_chunks,
            sources := fullTextSources st.document_text_chunks.length,
            mode := Mode.FULL_TEXT, image_data := none }) := by
    intro l
    simp [handle_query, h2, List.isEmpty_eq_false.mpr h1]
  exact ⟨key llm, (key llm).trans (key llm').symm⟩

/-- Claim C2, witness: a question containing both the full-text trigger
`"extract all text"` and the comparison trigger `"compare"` resolves to
FULL_TEXT with the whole store as answer. -/
theorem C2_full_text_bypass_witness :
    fullTextTrigger (pyLower "compare and extract all text".data) = true ∧
    comparisonTrigger (pyLower "compare and extract all text".data) = true ∧
    handle_query ⟨none, none, ["[NOTES] [Page 1] alpha".data], []⟩
        "compare and extract all text".data
        (fun _ _ => Except.error ()) (fun _ _ => RenderResult.missingFile) =
      (⟨none, none, ["[NOTES] [Page 1] alpha".data], []⟩, Except.ok
        { answer := "[NOTES] [Page 1] alpha".data,
          sources := fullTextSources 1,
          mode := Mode.FULL_TEXT, image_data := none }) :=
  ⟨by decide, by decide,
    (C2_full_text_bypass ⟨none, none, ["[NOTES] [Page 1] alpha".data], []⟩
      "compare and extract all text".data
      (fun _ _ => Except.error ()) (fun _ _ => Except.error ())
      (fun _ _ => RenderResult.missingFile) (by decide) (by decide)).1⟩

/-- Claim C3: the Retriever's selection is a subsequence of the Chunk Store
in store order, every selected chunk owes its selection to some keyword
being a literal substring of its lowercased text, the selection never
exceeds the cap (`handle_query` instantiates `cap = 30` for COMPARISON and
`cap = 25` for VERBATIM), and with no matching keyword (in particular with
an empty keyword list) the selection and the joined context are empty —
retrieval is a total function. -/
theorem C3_retriever_bounds (keywords store : List (List Char)) (cap : Nat) :
    (retrieveChunks keywords store cap).Sublist store ∧
    (∀ c ∈ retrieveChunks keywords store cap,
        ∃ kw ∈ keywords, containsSub (pyLower c) kw = true) ∧
    (retrieveChunks keywords store cap).length ≤ cap ∧
    ((∀ c ∈ store, ∀ kw ∈ keywords, containsSub (pyLower c) kw = false) →
        retrieveChunks keywords store cap = [] ∧
        joinSep "\n---\n".data (retrieveChunks keywords store cap) = []) ∧
    (keywords = [] → retrieveChunks keywords store cap = []) := by
  refine ⟨?_, ?_, ?_, ?_, ?_⟩
  · exact (List.take_sublist _ _).trans (List.filter_sublist _)
  · intro c hc
    have hmem := List.mem_of_mem_take hc
    have := (List.mem_filter.mp hmem).2
    exact List.any_eq_true.mp this
  · rw [retrieveChunks]
    simp [List.length_take]
  · intro hnone
    have hfil : store.filter
        (fun chunk => keywords.any (fun kw => containsSub (pyLower chunk) kw)) = [] := by
      rw [List.filter_eq_nil_iff]
      intro c hc
      simp only [Bool.not_eq_true, List.any_eq_false]
      intro kw hkw
      simp [hnone c hc kw hkw]
    rw [retrieveChunks, hfil, List.take_nil]
    exact ⟨rfl, rfl⟩
  · intro hk
    subst hk
    rw [retrieveChunks]
    simp

/-- Claim C3, witness: a keyword matching nothing selects nothing and
yields the empty context. -/
theorem C3_retriever_bounds_witness :
    retrieveChunks ["zz".data] ["[NOTES] [Page 1] alpha".data] 30 = [] ∧
    joinSep "\n---\n".data (retrieveChunks ["zz".data] ["[NOTES] [Page 1] alpha".data] 30) = [] :=
  (C3_retriever_bounds ["zz".data] ["[NOTES] [Page 1] alpha".data] 30).2.2.2.1 (by decide)

/-- Claim C4: if extraction raises anywhere, `extract_text_and_chunk`
returns `(False, 0)` and the state is untouched; both upload endpoints then
answer 500 with the Chunk Store and the History Ledger exactly as before
the call — ingestion is atomic per document. -/
theorem C4_extraction_failure_atomic (st : ServerState) (is_notes_file : Bool)
    (p q : String) :
    extract_text_and_chunk st (Except.error ()) is_notes_file = (st, false, 0) ∧
    (upload_notes_pdf st p (Except.error ())).1.document_text_chunks
      = st.document_text_chunks ∧
    (upload_notes_pdf st p (Except.error ())).1.query_history = st.query_history ∧
    (upload_notes_pdf st p (Except.error ())).2 = UploadOutcome.failure500 ∧
    (upload_paper_pdf st q (Except.error ())).1.document_text_chunks
      = st.document_text_chunks ∧
    (upload_paper_pdf st q (Except.error ())).1.query_history = st.query_history ∧
    (upload_paper_pdf st q (Except.error ())).2 = UploadOutcome.failure500 :=
  ⟨rfl, rfl, rfl, rfl, rfl, rfl, rfl⟩

/-- Claim C5: a successful primary (notes) upload replaces the Chunk Store
with exactly the new document's chunks and empties the History Ledger; a
successful secondary (paper) upload appends its chunks after every
pre-existing chunk and leaves the History Ledger unchanged. -/
theorem C5_replace_vs_append (st : ServerState) (p q : String)
    (pages : List (List Char)) :
    (upload_notes_pdf st p (Except.ok pages)).1.document_text_chunks
      = newChunks true pages ∧
    (upload_notes_pdf st p (Except.ok pages)).1.query_history = [] ∧
    (upload_notes_pdf st p (Except.ok pages)).2
      = UploadOutcome.success (newChunks true pages).length ∧
    (upload_paper_pdf st q (Except.ok pages)).1.document_text_chunks
      = st.document_text_chunks ++ newChunks false pages ∧
    (upload_paper_pdf st q (Except.ok pages)).1.query_history = st.query_history ∧
    (upload_paper_pdf st q (Except.ok pages)).2
      = UploadOutcome.success (newChunks false pages).length :=
  ⟨rfl, rfl, rfl, rfl, rfl, rfl⟩

/-- Claim C6, counterexample: the final revision's chunker
(`extract_text_and_chunk`, lines 84-93) has no OCR fallback and no empty-page
sentinel.  A two-page document whose first page natively extracts to the
empty string (length 0 < 100, page count 2 > 1) produces only the second
page's chunk: no chunk for page 1 exists at all, so no OCR text is used for
it and no sentinel placeholder naming it is substituted. -/
theorem C6_no_ocr_counterexample :
    ([([] : List Char), "page two text".data].length > 1) ∧
    (([] : List Char).length < 100) ∧
    (extract_text_and_chunk ⟨none, none, [], []⟩
        (Except.ok [[], "page two text".data]) true).1.document_text_chunks
      = ["[NOTES] [Page 2] page two text".data] ∧
    ((extract_text_and_chunk ⟨none, none, [], []⟩
        (Except.ok [[], "page two text".data]) true).1.document_text_chunks.any
          (fun c => containsSub c "[Page 1]".data)) = false := by
  refine ⟨by decide, by decide, by decide, by decide⟩

/-- Claim C6, amended: the chunker of this revision uses each page's
natively extracted text unconditionally — there is no length-100 OCR
fallback and no sentinel for empty pages — so a page whose native text is
empty contributes no chunks: no chunk of the resulting store carries that
page's `[Page N]` provenance prefix. -/
theorem C6_empty_page_no_chunks (st : ServerState) (pages : List (List Char))
    (i : Nat) (h : pages.get? i = some []) :
    ∀ c ∈ (extract_text_and_chunk st (Except.ok pages) true).1.document_text_chunks,
      ¬ pageLabel "[NOTES]".data (i + 1) <+: c := by
  intro c hc hpre
  have hc' : c ∈ chunkPages "[NOTES]".data 1 pages := hc
  rcases mem_chunkPages pages 1 c hc' with ⟨j, hj, hcj⟩
  rcases mem_chunkPage hcj with ⟨s, hs, rfl⟩
  have hij : i + 1 = 1 + j := pageLabel_prefix_eq hpre
  have hji : j = i := by omega
  subst hji
  rcases List.get?_eq_some.mp h with ⟨hlt, hget⟩
  have hget' : pages.get ⟨j, hj⟩ = [] := hget
  rw [hget'] at hs
  have hnil : chunkSlices ([] : List Char) = [] := rfl
  rw [hnil] at hs
  exact (List.not_mem_nil s) hs

/-- Claim C6, amended, witness: in the two-page document with an empty
first page, no stored chunk carries the page-1 prefix. -/
theorem C6_empty_page_no_chunks_witness :
    ([([] : List Char), "page two text".data].get? 0 = some []) ∧
    ∀ c ∈ (extract_text_and_chunk ⟨none, none, [], []⟩
        (Except.ok [[], "page two text".data]) true).1.document_text_chunks,
      ¬ pageLabel "[NOTES]".data 1 <+: c :=
  ⟨by decide,
    C6_empty_page_no_chunks ⟨none, none, [], []⟩ [[], "page two text".data] 0 (by decide)⟩

/-- Claim C7, counterexample: the comparison-mode keyword extraction
(lines 260-261) erases only `'compare'`, `'difference'`, `'differentiate'`
and `'between'` — `'distinguish'` is *not* stripped, although it is a
comparison trigger word.  For the question `"distinguish between tcp and
udp"` the word `"distinguish"` survives as a keyword. -/
theorem C7_distinguish_not_stripped :
    comparisonTrigger (pyLower "distinguish between tcp and udp".data) = true ∧
    "distinguish".data ∈ comparisonModeKeywords (pyLower "distinguish between tcp and udp".data) ∧
    comparisonModeKeywords (pyLower "distinguish between tcp and udp".data)
      = ["distinguish".data, "tcp".data, "and".data, "udp".data] := by
  refine ⟨by decide, by decide, by decide⟩

/-- Claim C7, amended: VERBATIM keyword extraction splits the lowercased
question on whitespace and keeps a token iff it is not *equal* to a
`fluff_words` entry and is longer than 2 characters; since tokens never
contain whitespace, multi-word entries such as `"explain the"` and
`"what is"` can never match a token and are inert (their constituent words
survive unless they independently match).  COMPARISON keyword extraction erases the
substrings `'compare'`, `'difference'`, `'differentiate'` and `'between'`
(not `'distinguish'`) from the question before splitting. -/
theorem C7_keyword_extraction (lower_q : List Char) :
    (∀ w ∈ final_keywords lower_q,
        w ∈ splitWs lower_q ∧ w ∉ fluff_words ∧ 2 < w.length) ∧
    (∀ w ∈ splitWs lower_q, ∀ e ∈ fluff_words, (' ' ∈ e) → w ≠ e) ∧
    comparisonModeKeywords lower_q
      = splitWs (eraseAllSub "between".data (eraseAllSub "differentiate".data
          (eraseAllSub "difference".data (eraseAllSub "compare".data lower_q)))) := by
  refine ⟨?_, ?_, rfl⟩
  · intro w hw
    have hmem := List.mem_filter.mp hw
    have hpred := hmem.2
    simp only [Bool.and_eq_true, Bool.not_eq_true', decide_eq_true_eq] at hpred
    refine ⟨hmem.1, ?_, hpred.2⟩
    intro hcontr
    have : fluff_words.contains w = true := List.elem_iff.mpr hcontr
    rw [this] at hpred
    exact absurd hpred.1 (by simp)
  · intro w hw e he hsp heq
    subst heq
    have := splitWs_no_ws w hw ' ' hsp
    simp at this

/-- Claim C7, amended, witness: `"tcp"` is kept by VERBATIM extraction of
`"what is tcp"`, and the token `"what"` cannot equal the multi-word entry
`"what is"`. -/
theorem C7_keyword_extraction_witness :
    ("tcp".data ∈ splitWs "what is tcp".data ∧ "tcp".data ∉ fluff_words ∧
      2 < "tcp".data.length) ∧
    "what".data ≠ "what is".data :=
  ⟨(C7_keyword_extraction "what is tcp".data).1 "tcp".data (by decide),
    (C7_keyword_extraction "what is tcp".data).2.1 "what".data (by decide)
      "what is".data (by decide) (by decide)⟩

/-- Claim C8, counterexample: the History Ledger is a flat list of lines —
`handle_query` appends `"Q: ..."` and `"A: ..."` as two separate entries —
and the prompt takes `query_history[-5:]`, the last five *lines*, not the
last five (question, truncatedAnswer) pairs.  With three past interactions
(six ledger lines) the VERBATIM prompt contains the first interaction's
truncated answer line `"A: a1..."` but *not* its question line `"Q: q1"`, so
the history section is not a sequence of (question, truncatedAnswer) pairs.
Moreover the claim fails for COMPARISON queries for a second reason: their
prompt has no history section at all.  With the same six-line ledger and an
echo completion service (which returns its prompt verbatim, making the
prompt observable in the answer), the comparison query
`"distinguish alpha"` is answered with exactly
`comparisonPrompt "distinguish alpha" "[NOTES] [Page 1] alpha"
" (Sources: Pages 1)"`, which contains neither the history header nor any
ledger line. -/
theorem C8_history_lines_counterexample :
    (lastN 5 ["Q: q1".data, "A: a1...".data, "Q: q2".data, "A: a2...".data,
        "Q: q3".data, "A: a3...".data]).length = 5 ∧
    containsSub (verbatimPrompt
        (history_context ["Q: q1".data, "A: a1...".data, "Q: q2".data,
          "A: a2...".data, "Q: q3".data, "A: a3...".data]) "tcp".data [])
      "A: a1...".data = true ∧
    containsSub (verbatimPrompt
        (history_context ["Q: q1".data, "A: a1...".data, "Q: q2".data,
          "A: a2...".data, "Q: q3".data, "A: a3...".data]) "tcp".data [])
      "Q: q1".data = false ∧
    (handle_query
        ⟨none, none, ["[NOTES] [Page 1] alpha".data],
          ["Q: q1".data, "A: a1...".data, "Q: q2".data, "A: a2...".data,
           "Q: q3".data, "A: a3...".data]⟩
        "distinguish alpha".data
        (fun _ prompt => Except.ok prompt) (fun _ _ => RenderResult.missingFile)).2
      = Except.ok
        { answer := comparisonPrompt "distinguish alpha".data
            "[NOTES] [Page 1] alpha".data " (Sources: Pages 1)".data,
          sources := "Comparison Mode".data, mode := Mode.COMPARISON,
          image_data := none } ∧
    containsSub (comparisonPrompt "distinguish alpha".data
        "[NOTES] [Page 1] alpha".data " (Sources: Pages 1)".data)
      "--- Conversation History ---".data = false ∧
    containsSub (comparisonPrompt "distinguish alpha".data
        "[NOTES] [Page 1] alpha".data " (Sources: Pages 1)".data)
      "A: a1...".data = false := by
  refine ⟨by decide, by decide, by decide, by decide, by decide, by decide⟩

/-- Claim C8, amended: only VERBATIM-mode prompts carry a conversation
history; the section is built from the last 5 *lines* of the flat History
Ledger, where each successful completion appends two separate lines,
`"Q: " + question` and `"A: " + answer[:50] + "..."` (so the stored answer
part is at most 50 characters plus the ellipsis, 56 characters with the
`"A: "` prefix), and every one of those last 5 lines occurs verbatim inside
the prompt handed to the completion service.  COMPARISON prompts contain no
history section: the fourth conjunct shows that in COMPARISON mode the
completion service is handed exactly `comparisonPrompt question context
cite` — a term in which the History Ledger does not occur — and the fifth
conjunct proves outright that for any comparison-trigger question the
query response is identical for *any* two ledger contents, for every
completion and rendering collaborator, so no part of the ledger can reach
a COMPARISON prompt. -/
theorem C8_flat_history_in_prompt (st : ServerState) (question : List Char)
    (llm : List Char → List Char → Except Unit (List Char))
    (fs : String → Nat → RenderResult) (answer_text : List Char)
    (h1 : st.document_text_chunks ≠ [])
    (h2 : fullTextTrigger (pyLower question) = false)
    (h3 : comparisonTrigger (pyLower question) = false)
    (h4 : llm verbatim_instruction
        (verbatimPrompt (history_context st.query_history) question
          (joinSep "\n---\n".data
            (retrieveChunks (final_keywords (pyLower question)) st.document_text_chunks 25)))
      = Except.ok answer_text) :
    (handle_query st question llm fs).1.query_history
      = st.query_history
        ++ ["Q: ".data ++ question, "A: ".data ++ answer_text.take 50 ++ "...".data] ∧
    ("A: ".data ++ answer_text.take 50 ++ "...".data).length ≤ 56 ∧
    (∀ line ∈ lastN 5 st.query_history,
        line <:+: verbatimPrompt (history_context st.query_history) question
          (joinSep "\n---\n".data
            (retrieveChunks (final_keywords (pyLower question)) st.document_text_chunks 25))) ∧
    (∀ (st' : ServerState) (question' : List Char)
        (llm' : List Char → List Char → Except Unit (List Char))
        (fs' : String → Nat → RenderResult) (answer' : List Char),
        st'.document_text_chunks ≠ [] →
        fullTextTrigger (pyLower question') = false →
        comparisonTrigger (pyLower question') = true →
        (((retrieveChunks (comparisonModeKeywords (pyLower question'))
              st'.document_text_chunks 30).filter
            (fun chunk => containsSub chunk "[Page ".data)).map
          parseChunkPageNum).contains none = false →
        llm' comparison_instruction
            (comparisonPrompt question'
              (joinSep "\n---\n".data
                (retrieveChunks (comparisonModeKeywords (pyLower question'))
                  st'.document_text_chunks 30))
              (pageRefString (sortNat
                ((((retrieveChunks (comparisonModeKeywords (pyLower question'))
                      st'.document_text_chunks 30).filter
                    (fun chunk => containsSub chunk "[Page ".data)).map
                  parseChunkPageNum).filterMap id).dedup)))
          = Except.ok answer' →
        (handle_query st' question' llm' fs').2 = Except.ok
          { answer := answer', sources := "Comparison Mode".data,
            mode := Mode.COMPARISON,
            image_data := figure_image fs' st'.notes_pdf_path Mode.COMPARISON answer' }) ∧
    (∀ (st' : ServerState) (h₁ h₂ : List (List Char)) (question' : List Char)
        (llm' : List Char → List Char → Except Unit (List Char))
        (fs' : String → Nat → RenderResult),
        comparisonTrigger (pyLower question') = true →
        (handle_query { st' with query_history := h₁ } question' llm' fs').2
          = (handle_query { st' with query_history := h₂ } question' llm' fs').2) := by
  have hne : st.document_text_chunks.isEmpty = false := List.isEmpty_eq_false.mpr h1
  refine ⟨?_, ?_, ?_, ?_, ?_⟩
  · simp only [handle_query, hne, h2, h3, Bool.false_eq_true, if_false]
    rw [h4]
  · rw [List.length_append, List.length_append]
    have h50 : (answer_text.take 50).length ≤ 50 := by
      rw [List.length_take]; exact Nat.min_le_left _ _
    have hq : ("A: ".data : List Char).length = 3 := by decide
    have he : ("...".data : List Char).length = 3 := by decide
    omega
  · intro line hline
    have h5 : line <:+: joinSep "\n".data (lastN 5 st.query_history) :=
      mem_joinSep_infix "\n".data (lastN 5 st.query_history) line hline
    have h6 : joinSep "\n".data (lastN 5 st.query_history)
        <:+: history_context st.query_history := by
      simp only [history_context]
      cases hE : (joinSep "\n".data (lastN 5 st.query_history)).isEmpty with
      | true =>
        rw [if_pos rfl, List.isEmpty_iff.mp hE]
      | false =>
        rw [if_neg (by simp)]
        exact List.infix_append _ _ _
    have h7 : history_context st.query_history
        <:+: verbatimPrompt (history_context st.query_history) question
          (joinSep "\n---\n".data
            (retrieveChunks (final_keywords (pyLower question)) st.document_text_chunks 25)) := by
      have := List.infix_append "CONVERSATION HISTORY: ".data
        (history_context st.query_history)
        (" \nUser Question: ".data ++ question ++ "\n\nCONTEXT:\n".data
          ++ joinSep "\n---\n".data
            (retrieveChunks (final_keywords (pyLower question)) st.document_text_chunks 25))
      simpa [verbatimPrompt, List.append_assoc] using this
    exact h5.trans (h6.trans h7)
  · intro st' question' llm' fs' answer' h1' h2' h3' hp hllm
    have hne' : st'.document_text_chunks.isEmpty = false := List.isEmpty_eq_false.mpr h1'
    simp only [handle_query, hne', h2', h3', hp, Bool.false_eq_true, if_false,
      eq_self_iff_true, if_true]
    rw [hllm]
  · intro st' h₁ h₂ question' llm' fs' hcmp
    cases hne' : st'.document_text_chunks.isEmpty with
    | true => simp [handle_query, hne']
    | false =>
      cases hft : fullTextTrigger (pyLower question') with
      | true => simp [handle_query, hne', hft]
      | false =>
        simp only [handle_query, hne', hft, hcmp, Bool.false_eq_true, if_false,
          eq_self_iff_true, if_true]
        cases hpn : (((retrieveChunks (comparisonModeKeywords (pyLower question'))
              st'.document_text_chunks 30).filter
            (fun chunk => containsSub chunk "[Page ".data)).map
          parseChunkPageNum).contains none with
        | true => simp [hpn]
        | false =>
          simp only [hpn, Bool.false_eq_true, if_false]
          cases hllm : llm' comparison_instruction
              (comparisonPrompt question'
                (joinSep "\n---\n".data
                  (retrieveChunks (comparisonModeKeywords (pyLower question'))
                    st'.document_text_chunks 30))
                (pageRefString (sortNat
                  ((((retrieveChunks (comparisonModeKeywords (pyLower question'))
                        st'.document_text_chunks 30).filter
                      (fun chunk => containsSub chunk "[Page ".data)).map
                    parseChunkPageNum).filterMap id).dedup))) with
          | error e => simp [hllm]
          | ok a => simp [hllm]

/-- Claim C8, amended, witness: with six ledger lines, a successful VERBATIM
query appends the new `Q:` and truncated `A:` lines as two entries; and a
COMPARISON query returns the same response whether the ledger holds those
six lines or is empty. -/
theorem C8_flat_history_in_prompt_witness :
    (handle_query
        ⟨none, none, ["[NOTES] [Page 1] alpha beta".data],
          ["Q: q1".data, "A: a1...".data, "Q: q2".data, "A: a2...".data,
           "Q: q3".data, "A: a3...".data]⟩
        "alpha".data
        (fun _ _ => Except.ok "ANSWER".data)
        (fun _ _ => RenderResult.missingFile)).1.query_history
      = ["Q: q1".data, "A: a1...".data, "Q: q2".data, "A: a2...".data,
         "Q: q3".data, "A: a3...".data, "Q: alpha".data, "A: ANSWER...".data] ∧
    (handle_query
        ⟨none, none, ["[NOTES] [Page 1] alpha".data],
          ["Q: q1".data, "A: a1...".data, "Q: q2".data, "A: a2...".data,
           "Q: q3".data, "A: a3...".data]⟩
        "distinguish alpha".data
        (fun _ prompt => Except.ok prompt) (fun _ _ => RenderResult.missingFile)).2
      = (handle_query
          ⟨none, none, ["[NOTES] [Page 1] alpha".data], []⟩
          "distinguish alpha".data
          (fun _ prompt => Except.ok prompt) (fun _ _ => RenderResult.missingFile)).2 :=
  ⟨(C8_flat_history_in_prompt
      ⟨none, none, ["[NOTES] [Page 1] alpha beta".data],
        ["Q: q1".data, "A: a1...".data, "Q: q2".data, "A: a2...".data,
         "Q: q3".data, "A: a3...".data]⟩
      "alpha".data
      (fun _ _ => Except.ok "ANSWER".data)
      (fun _ _ => RenderResult.missingFile)
      "ANSWER".data (by decide) (by decide) (by decide) rfl).1,
   (C8_flat_history_in_prompt
      ⟨none, none, ["[NOTES] [Page 1] alpha beta".data],
        ["Q: q1".data, "A: a1...".data, "Q: q2".data, "A: a2...".data,
         "Q: q3".data, "A: a3...".data]⟩
      "alpha".data
      (fun _ _ => Except.ok "ANSWER".data)
      (fun _ _ => RenderResult.missingFile)
      "ANSWER".data (by decide) (by decide) (by decide) rfl).2.2.2.2
     ⟨none, none, ["[NOTES] [Page 1] alpha".data], []⟩
     ["Q: q1".data, "A: a1...".data, "Q: q2".data, "A: a2...".data,
      "Q: q3".data, "A: a3...".data] []
     "distinguish alpha".data
     (fun _ prompt => Except.ok prompt) (fun _ _ => RenderResult.missingFile)
     (by decide)⟩

/-- Claim C9: for VERBATIM answers containing the figure marker, the
post-processor parses the digits of the cited page and asks the renderer
for that page of the primary document, attaching a base64 PNG data URI on
success; a missing primary handle, a failed parse, a missing file or a
render exception all leave the image field absent, and the request still
succeeds (the top-level query result is `Except.ok` with `image_data`
computed best-effort); non-VERBATIM answers never trigger rendering. -/
theorem C9_figure_best_effort (fs : String → Nat → RenderResult) (p : String)
    (answer_text : List Char) (n : Nat) (b64 : List Char) :
    (containsSub answer_text "[FIG:".data = true → parseFigPage answer_text = some n →
        fs p n = RenderResult.success b64 →
        figure_image fs (some p) Mode.VERBATIM answer_text
          = some ("data:image/png;base64,".data ++ b64)) ∧
    (containsSub answer_text "[FIG:".data = true → parseFigPage answer_text = some n →
        fs p n = RenderResult.renderError →
        figure_image fs (some p) Mode.VERBATIM answer_text = none) ∧
    (containsSub answer_text "[FIG:".data = true → parseFigPage answer_text = some n →
        fs p n = RenderResult.missingFile →
        figure_image fs (some p) Mode.VERBATIM answer_text = none) ∧
    (parseFigPage answer_text = none →
        figure_image fs (some p) Mode.VERBATIM answer_text = none) ∧
    (figure_image fs none Mode.VERBATIM answer_text = none) ∧
    (figure_image fs (some p) Mode.COMPARISON answer_text = none) ∧
    (figure_image fs (some p) Mode.FULL_TEXT answer_text = none) ∧
    (∀ (st : ServerState) (question : List Char)
        (llm : List Char → List Char → Except Unit (List Char)),
        st.document_text_chunks ≠ [] →
        fullTextTrigger (pyLower question) = false →
        comparisonTrigger (pyLower question) = false →
        llm verbatim_instruction
            (verbatimPrompt (history_context st.query_history) question
              (joinSep "\n---\n".data
                (retrieveChunks (final_keywords (pyLower question))
                  st.document_text_chunks 25)))
          = Except.ok answer_text →
        (handle_query st question llm fs).2 = Except.ok
          { answer := answer_text,
            sources := verbatimSources
              (retrieveChunks (final_keywords (pyLower question))
                st.document_text_chunks 25).length,
            mode := Mode.VERBATIM,
            image_data := figure_image fs st.notes_pdf_path Mode.VERBATIM answer_text }) := by
  refine ⟨?_, ?_, ?_, ?_, rfl, ?_, ?_, ?_⟩
  · intro hct hpf hfs
    simp [figure_image, hct, hpf, extract_and_crop_image, hfs]
  · intro hct hpf hfs
    simp [figure_image, hct, hpf, extract_and_crop_image, hfs]
  · intro hct hpf hfs
    simp [figure_image, hct, hpf, extract_and_crop_image, hfs]
  · intro hpf
    simp [figure_image, hpf]
  · simp [figure_image]
  · simp [figure_image]
  · intro st question llm h1 h2 h3 h4
    have hne : st.document_text_chunks.isEmpty = false := List.isEmpty_eq_false.mpr h1
    simp only [handle_query, hne, h2, h3, Bool.false_eq_true, if_false]
    rw [h4]

/-- Claim C9, witness: a successful render attaches the data URI; a
throwing render is swallowed and leaves the image absent. -/
theorem C9_figure_best_effort_witness :
    figure_image (fun _ _ => RenderResult.success "IMG".data) (some "notes.pdf")
        Mode.VERBATIM "see [FIG:Page 12] end".data
      = some "data:image/png;base64,IMG".data ∧
    figure_image (fun _ _ => RenderResult.renderError) (some "notes.pdf")
        Mode.VERBATIM "see [FIG:Page 12] end".data = none :=
  ⟨(C9_figure_best_effort (fun _ _ => RenderResult.success "IMG".data) "notes.pdf"
      "see [FIG:Page 12] end".data 12 "IMG".data).1 (by decide) (by decide) rfl,
   (C9_figure_best_effort (fun _ _ => RenderResult.renderError) "notes.pdf"
      "see [FIG:Page 12] end".data 12 "IMG".data).2.1 (by decide) (by decide) rfl⟩

/-- Claim C10: both upload endpoints overwrite their slot's global path
handle before extraction is attempted, so after a failed upload the Chunk
Store and the History Ledger are unchanged but the handle already points at
the new file — subsequent figure rendering (which consults
`notes_pdf_path`) targets the failed upload's file (and question-paper
resolution consults the overwritten `paper_pdf_path`). -/
theorem C10_handle_overwritten_before_extraction (st : ServerState) (pn pp : String)
    (extraction : Except Unit (List (List Char))) :
    (upload_notes_pdf st pn extraction).1.notes_pdf_path = some pn ∧
    (upload_paper_pdf st pp extraction).1.paper_pdf_path = some pp ∧
    (upload_notes_pdf st pn (Except.error ())).1.document_text_chunks
      = st.document_text_chunks ∧
    (upload_notes_pdf st pn (Except.error ())).1.query_history = st.query_history ∧
    (upload_notes_pdf st pn (Except.error ())).2 = UploadOutcome.failure500 ∧
    (upload_paper_pdf st pp (Except.error ())).1.document_text_chunks
      = st.document_text_chunks ∧
    (upload_paper_pdf st pp (Except.error ())).1.query_history = st.query_history ∧
    (upload_paper_pdf st pp (Except.error ())).2 = UploadOutcome.failure500 ∧
    (∀ (fs : String → Nat → RenderResult) (answer_text : List Char),
        figure_image fs (upload_notes_pdf st pn (Except.error ())).1.notes_pdf_path
            Mode.VERBATIM answer_text
          = figure_image fs (some pn) Mode.VERBATIM answer_text) := by
  refine ⟨?_, ?_, rfl, rfl, rfl, rfl, rfl, rfl, fun _ _ => rfl⟩
  · cases extraction with
    | error e => rfl
    | ok pages => rfl
  · cases extraction with
    | error e => rfl
    | ok pages => rfl
